import Mathlib

/-!
Shallow embedding of the socketcan identifier / frame / error-frame model
(`socketcan_id.rs`, `socketcan_frame.rs`, `socketcan_embedded.rs`).

Machine integers (`u8`, `u16`, `u32`) are embedded as `Nat`; every place the
source narrows a value (an `as u16` / `as u8` cast, a bit mask) is rendered
by an explicit `% 2 ^ w` or `&&&` at the same place.  Fallible operations
(`Option`, `Result`) become `Option` / `Except`.
-/

namespace SocketCan

/-- Standard 11-bit CAN identifier: the tuple struct `StandardId(u16)`. -/
structure StandardId where
  val : Nat
deriving DecidableEq, Repr

/-- Constructor `StandardId::new`: `None` when `raw > 0x7FF`. -/
def StandardId.new (raw : Nat) : Option StandardId :=
  if raw ≤ 0x7FF then some ⟨raw⟩ else none

/-- Accessor `StandardId::as_raw`. -/
def StandardId.as_raw (id : StandardId) : Nat :=
  id.val

/-- Extended 29-bit CAN identifier: the tuple struct `ExtendedId(u32)`. -/
structure ExtendedId where
  val : Nat
deriving DecidableEq, Repr

/-- Constructor `ExtendedId::new`: `None` when `raw > 0x1FFF_FFFF`. -/
def ExtendedId.new (raw : Nat) : Option ExtendedId :=
  if raw ≤ 0x1FFFFFFF then some ⟨raw⟩ else none

/-- Accessor `ExtendedId::as_raw`. -/
def ExtendedId.as_raw (id : ExtendedId) : Nat :=
  id.val

/-- Method `ExtendedId::standard_id`: `StandardId((self.0 >> 18) as u16)`.
The `as u16` truncation is the explicit `% 2 ^ 16`. -/
def ExtendedId.standard_id (id : ExtendedId) : StandardId :=
  ⟨(id.val >>> 18) % 2 ^ 16⟩

/-- Tagged union `Id`: `Standard(StandardId)` or `Extended(ExtendedId)`. -/
inductive Id where
  | Standard (id : StandardId)
  | Extended (id : ExtendedId)
deriving DecidableEq, Repr

/-- The closure `split_id` inside `Ord for Id`: a standard identifier maps to
`(raw, 0, 0)`, an extended one to `(standard_id, 1, low 18 bits)`. -/
def Id.split_id : Id → Nat × Nat × Nat
  | .Standard s => (s.val, 0, 0)
  | .Extended x => (x.standard_id.val, 1, x.val &&& ((1 <<< 18) - 1))

/-- `Ord for Id`: `split_id(self).cmp(&split_id(other))`, the lexicographic
comparison of the two triples (Rust derives tuple comparison this way). -/
def Id.cmp (a b : Id) : Ordering :=
  (compare a.split_id.1 b.split_id.1).then
    ((compare a.split_id.2.1 b.split_id.2.1).then
      (compare a.split_id.2.2 b.split_id.2.2))

/-- An identifier whose payload is inside its declared domain: 11 bits for
standard, 29 bits for extended (what the checked constructors guarantee). -/
def Id.valid : Id → Prop
  | .Standard s => s.val ≤ 0x7FF
  | .Extended e => e.val ≤ 0x1FFFFFFF

instance : DecidablePred Id.valid := fun id =>
  match id with
  | .Standard s => (inferInstance : Decidable (s.val ≤ 0x7FF))
  | .Extended e => (inferInstance : Decidable (e.val ≤ 0x1FFFFFFF))

/-- Spec-side reading: the top-11-bit base of an identifier (an extended
identifier uses its derived base, bits 28..18). -/
def Id.baseOf : Id → Nat
  | .Standard s => s.val
  | .Extended e => e.val / 2 ^ 18

/-- Spec-side reading: the IDE (identifier-extension) bit, 0 for standard,
1 for extended. -/
def Id.ideBit : Id → Nat
  | .Standard _ => 0
  | .Extended _ => 1

/-- Spec-side reading: the low-18-bit remainder of an extended identifier
(0 for a standard one). -/
def Id.lowBits : Id → Nat
  | .Standard _ => 0
  | .Extended e => e.val % 2 ^ 18

/-- Spec-side comparison, written exactly as the spec describes it: first the
base IDs, then standard-before-extended, then the low 18 bits. -/
def specIdCmp (a b : Id) : Ordering :=
  if a.baseOf < b.baseOf then .lt
  else if b.baseOf < a.baseOf then .gt
  else if a.ideBit < b.ideBit then .lt
  else if b.ideBit < a.ideBit then .gt
  else if a.lowBits < b.lowBits then .lt
  else if b.lowBits < a.lowBits then .gt
  else .eq

/-! Constants of `socketcan_frame.rs` (`_CANFD_BRS`, ... in the source). -/

/-- `_CANFD_BRS`. -/
def CANFD_BRS : Nat := 1
/-- `_CANFD_ESI`. -/
def CANFD_ESI : Nat := 2
/-- `_CANFD_MAX_DLEN`. -/
def CANFD_MAX_DLEN : Nat := 64
/-- `_CAN_EFF_FLAG`. -/
def CAN_EFF_FLAG : Nat := 2147483648
/-- `_CAN_RTR_FLAG`. -/
def CAN_RTR_FLAG : Nat := 1073741824
/-- `_CAN_ERR_FLAG`. -/
def CAN_ERR_FLAG : Nat := 536870912
/-- `_CAN_MAX_DLEN`. -/
def CAN_MAX_DLEN : Nat := 8
/-- `_CAN_SFF_MASK`. -/
def CAN_SFF_MASK : Nat := 2047
/-- `_CAN_ERR_MASK`. -/
def CAN_ERR_MASK : Nat := 536870911
/-- `_CAN_EFF_MASK`. -/
def CAN_EFF_MASK : Nat := 536870911

/-- `IdFlags`: a composite ID word together with its flag accessors. -/
structure IdFlags where
  can_id : Nat
deriving DecidableEq, Repr

/-- `IdFlags::new`. -/
def IdFlags.new (can_id : Nat) : IdFlags :=
  ⟨can_id⟩

/-- `IdFlags::is_extended`: `(can_id & CAN_EFF_FLAG) != 0`. -/
def IdFlags.is_extended (f : IdFlags) : Bool :=
  f.can_id &&& CAN_EFF_FLAG ≠ 0

/-- `IdFlags::is_remote`: `(can_id & CAN_RTR_FLAG) != 0`. -/
def IdFlags.is_remote (f : IdFlags) : Bool :=
  f.can_id &&& CAN_RTR_FLAG ≠ 0

/-- `IdFlags::is_error`: `(can_id & CAN_ERR_FLAG) != 0`. -/
def IdFlags.is_error (f : IdFlags) : Bool :=
  f.can_id &&& CAN_ERR_FLAG ≠ 0

/-- The C-compatible classic frame `can_frame`: composite ID word, length
code, and an 8-byte payload (`data : [u8; 8]`, kept as a length-8 list). -/
structure can_frame where
  can_id : Nat
  can_dlc : Nat
  data : List Nat
deriving DecidableEq, Repr

/-- `can_frame_default`: the all-zeros frame (`mem::zeroed`). -/
def can_frame_default : can_frame :=
  ⟨0, 0, List.replicate 8 0⟩

/-- `id_to_canid_t`: the raw value of the identifier, with `CAN_EFF_FLAG`
OR-ed in for an extended identifier. -/
def id_to_canid_t : Id → Nat
  | .Standard s => s.as_raw
  | .Extended e => e.as_raw ||| CAN_EFF_FLAG

/-- `id_is_extended`: `matches!(id, Id::Extended(_))`. -/
def id_is_extended : Id → Bool
  | .Standard _ => false
  | .Extended _ => true

/-- `id_from_raw`: a value `<= CAN_SFF_MASK` becomes a standard identifier
(after the `as u16` cast), anything else goes through `ExtendedId::new`. -/
def id_from_raw (id : Nat) : Option Id :=
  if id ≤ CAN_SFF_MASK then
    (StandardId.new (id % 2 ^ 16)).map Id.Standard
  else
    (ExtendedId.new id).map Id.Extended

/-- `ConstructionError` variants used by this model (declared in
`socketcan_error.rs`, exercised by `socketcan_frame.rs`). -/
inductive ConstructionError where
  | TooMuchData
  | WrongFrameType
deriving DecidableEq, Repr

/-- `CanErrorFrame`: a newtype around a classic `can_frame`. -/
structure CanErrorFrame where
  frame : can_frame
deriving DecidableEq, Repr

/-- `CanErrorFrame::new_error`: when `data.len() <= CAN_MAX_DLEN`, start from
the zeroed frame, set `can_id = (can_id & CAN_ERR_MASK) | CAN_ERR_FLAG` and
`can_dlc = CAN_MAX_DLEN`, and copy `data` over the first `n` zero bytes;
otherwise fail with `TooMuchData`. -/
def CanErrorFrame.new_error (can_id : Nat) (data : List Nat) :
    Except ConstructionError CanErrorFrame :=
  if data.length ≤ CAN_MAX_DLEN then
    Except.ok ⟨{ can_id := (can_id &&& CAN_ERR_MASK) ||| CAN_ERR_FLAG,
                 can_dlc := CAN_MAX_DLEN,
                 data := data ++ List.replicate (8 - data.length) 0 }⟩
  else
    Except.error ConstructionError.TooMuchData

/-- `CanErrorFrame::id_word`: the stored composite ID word. -/
def CanErrorFrame.id_word (f : CanErrorFrame) : Nat :=
  f.frame.can_id

/-- `CanErrorFrame::error_bits`: `id_word() & CAN_ERR_MASK`. -/
def CanErrorFrame.error_bits (f : CanErrorFrame) : Nat :=
  f.id_word &&& CAN_ERR_MASK

/-- `TryFrom<can_frame> for CanErrorFrame`: succeed with the frame unchanged
when its ERR flag bit is set, otherwise `WrongFrameType`. -/
def CanErrorFrame.tryFrom (frame : can_frame) :
    Except ConstructionError CanErrorFrame :=
  if frame.can_id &&& CAN_ERR_FLAG ≠ 0 then
    Except.ok ⟨frame⟩
  else
    Except.error ConstructionError.WrongFrameType

/-- `Frame::new_remote for CanErrorFrame`: always `None`. -/
def CanErrorFrame.new_remote (_id : Id) (_dlc : Nat) : Option CanErrorFrame :=
  none

/-- `Frame::is_remote_frame for CanErrorFrame`: always `false`. -/
def CanErrorFrame.is_remote_frame (_f : CanErrorFrame) : Bool :=
  false

/-- `Frame::is_data_frame for CanErrorFrame`: overridden to always `false`
(the trait default would be `!is_remote_frame()`). -/
def CanErrorFrame.is_data_frame (_f : CanErrorFrame) : Bool :=
  false

/-- `Frame::dlc for CanErrorFrame`: the stored length code. -/
def CanErrorFrame.dlc (f : CanErrorFrame) : Nat :=
  f.frame.can_dlc

/-- `Frame::data for CanErrorFrame`: the full 8-byte payload. -/
def CanErrorFrame.data (f : CanErrorFrame) : List Nat :=
  f.frame.data

/-- `CanErrorFrame::set_id`: `{}` — returns the frame untouched (the Rust
method mutates nothing). -/
def CanErrorFrame.set_id (f : CanErrorFrame) (_id : Id) : CanErrorFrame :=
  f

/-- `CanErrorFrame::set_data`: always `Err(WrongFrameType)`, frame state
untouched; the pair carries the result and the (unchanged) receiver. -/
def CanErrorFrame.set_data (f : CanErrorFrame) (_data : List Nat) :
    Except ConstructionError Unit × CanErrorFrame :=
  (Except.error ConstructionError.WrongFrameType, f)

/-- The source body of `Frame::is_extended for CanErrorFrame` is
`self.is_extended()` — it calls itself.  Embedded with explicit fuel: one
unit of fuel is spent per self-call, `none` meaning the fuel ran out before
a value was produced. -/
def CanErrorFrame.is_extended_fuel : Nat → CanErrorFrame → Option Bool
  | 0, _ => none
  | fuel + 1, f => CanErrorFrame.is_extended_fuel fuel f

/-- Trait default `Frame::is_standard`: `!self.is_extended()`, over the
fuel-based `is_extended` of the error frame. -/
def CanErrorFrame.is_standard_fuel (fuel : Nat) (f : CanErrorFrame) :
    Option Bool :=
  (CanErrorFrame.is_extended_fuel fuel f).map (fun b => !b)

/-- Modelled from the spec: the `CanError` enum itself is declared in
`socketcan_error.rs`, which is not among the provided sources; its variants
and payloads are reconstructed from the `match` in
`From<CanError> for CanErrorFrame` and the spec's encoding table.  Payloads
that the source casts with `as u8` (`prob`, `vtype`, `location`) are carried
as `Nat` and truncated at the cast site. -/
inductive CanError where
  | TransmitTimeout
  | LostArbitration (bit : Nat)
  | ControllerProblem (prob : Nat)
  | ProtocolViolation (vtype location : Nat)
  | TransceiverError
  | NoAck
  | BusOff
  | BusError
  | Restarted
  | DecodingFailure (failure : Nat)
  | Unknown (e : Nat)
deriving DecidableEq, Repr

/-- The final `Self::new_error(id, &data).unwrap()` of
`From<CanError> for CanErrorFrame`: the `unwrap` panic branch is dead code
there (the payload is always exactly 8 bytes), rendered as the zeroed
frame. -/
def CanErrorFrame.unwrap_new_error (id : Nat) (data : List Nat) :
    CanErrorFrame :=
  match CanErrorFrame.new_error id data with
  | .ok f => f
  | .error _ => ⟨can_frame_default⟩

/-- `From<CanError> for CanErrorFrame`: start from 8 zero bytes, pick the
error-bit code and case-specific payload bytes per variant, then
`Self::new_error(id, &data).unwrap()`. -/
def CanErrorFrame.fromCanError (err : CanError) : CanErrorFrame :=
  let d0 : List Nat := List.replicate 8 0
  match err with
  | .TransmitTimeout => CanErrorFrame.unwrap_new_error 0x0001 d0
  | .LostArbitration bit => CanErrorFrame.unwrap_new_error 0x0002 (d0.set 0 bit)
  | .ControllerProblem prob =>
      CanErrorFrame.unwrap_new_error 0x0004 (d0.set 1 (prob % 2 ^ 8))
  | .ProtocolViolation vtype location =>
      CanErrorFrame.unwrap_new_error 0x0008
        ((d0.set 2 (vtype % 2 ^ 8)).set 3 (location % 2 ^ 8))
  | .TransceiverError => CanErrorFrame.unwrap_new_error 0x0010 d0
  | .NoAck => CanErrorFrame.unwrap_new_error 0x0020 d0
  | .BusOff => CanErrorFrame.unwrap_new_error 0x0040 d0
  | .BusError => CanErrorFrame.unwrap_new_error 0x0080 d0
  | .Restarted => CanErrorFrame.unwrap_new_error 0x0100 d0
  | .DecodingFailure _failure => CanErrorFrame.unwrap_new_error 0 d0
  | .Unknown e => CanErrorFrame.unwrap_new_error e d0

/-! Helper lemmas (shared; none of them is a claim's theorem). -/

/-- The 18-bit mask of `split_id` is reduction modulo `2 ^ 18`. -/
theorem and_mask18 (x : Nat) : x &&& ((1 <<< 18) - 1) = x % 2 ^ 18 := by
  have h : (1 <<< 18 : Nat) = 2 ^ 18 := by simp [Nat.shiftLeft_eq]
  rw [h, Nat.and_pow_two_sub_one_eq_mod]

/-- A `then`-chain of three `Nat` comparisons is the nested trichotomy. -/
theorem then_chain_eq_if (a1 a2 a3 b1 b2 b3 : Nat) :
    (compare a1 b1).then ((compare a2 b2).then (compare a3 b3)) =
      (if a1 < b1 then Ordering.lt
       else if b1 < a1 then Ordering.gt
       else if a2 < b2 then Ordering.lt
       else if b2 < a2 then Ordering.gt
       else if a3 < b3 then Ordering.lt
       else if b3 < a3 then Ordering.gt
       else Ordering.eq) := by
  rw [Nat.compare_def_lt, Nat.compare_def_lt, Nat.compare_def_lt]
  rcases Nat.lt_trichotomy a1 b1 with h1 | h1 | h1 <;>
    rcases Nat.lt_trichotomy a2 b2 with h2 | h2 | h2 <;>
      rcases Nat.lt_trichotomy a3 b3 with h3 | h3 | h3 <;>
        simp_all [Ordering.then]

/-- `Ordering.then` yields `eq` exactly when both arguments do. -/
theorem ordering_then_eq_eq (o₁ o₂ : Ordering) :
    o₁.then o₂ = Ordering.eq ↔ o₁ = Ordering.eq ∧ o₂ = Ordering.eq := by
  cases o₁ <;> simp [Ordering.then]

/-- Under validity, `split_id` computes the spec-side triple. -/
theorem split_id_eq_spec (a : Id) (ha : a.valid) :
    a.split_id = (a.baseOf, a.ideBit, a.lowBits) := by
  cases a with
  | Standard s => rfl
  | Extended e =>
    have he : e.val ≤ 0x1FFFFFFF := ha
    have h1 : (e.val >>> 18) % 2 ^ 16 = e.val / 2 ^ 18 := by
      rw [Nat.shiftRight_eq_div_pow]
      exact Nat.mod_eq_of_lt (Nat.div_lt_of_lt_mul (by omega))
    have h3 : e.val &&& ((1 <<< 18) - 1) = e.val % 2 ^ 18 := and_mask18 e.val
    show ((e.val >>> 18) % 2 ^ 16, 1, e.val &&& ((1 <<< 18) - 1)) =
      (e.val / 2 ^ 18, 1, e.val % 2 ^ 18)
    rw [h1, h3]

/-- `id_from_raw` on a value in the 11-bit range. -/
theorem id_from_raw_low (raw : Nat) (h : raw ≤ 0x7FF) :
    id_from_raw raw = some (Id.Standard ⟨raw⟩) := by
  have hx : raw % 2 ^ 16 = raw := Nat.mod_eq_of_lt (by omega)
  unfold id_from_raw CAN_SFF_MASK StandardId.new
  rw [if_pos (show raw ≤ 2047 from h), hx, if_pos h]
  rfl

/-- `id_from_raw` on a value above 11 bits but within 29 bits. -/
theorem id_from_raw_mid (raw : Nat) (h1 : 0x7FF < raw) (h2 : raw ≤ 0x1FFFFFFF) :
    id_from_raw raw = some (Id.Extended ⟨raw⟩) := by
  unfold id_from_raw CAN_SFF_MASK ExtendedId.new
  rw [if_neg (by omega), if_pos h2]
  rfl

/-- `id_from_raw` on a value beyond 29 bits. -/
theorem id_from_raw_high (raw : Nat) (h : 0x1FFFFFFF < raw) :
    id_from_raw raw = none := by
  unfold id_from_raw CAN_SFF_MASK ExtendedId.new
  rw [if_neg (by omega), if_neg (by omega)]
  rfl

/-- OR-ing a bit at or above position 29 does not disturb a 29-bit mask. -/
theorem or_high_bit_masked (raw k : Nat) (hk : 29 ≤ k) (h : raw < 2 ^ 29) :
    (raw ||| 2 ^ k) &&& (2 ^ 29 - 1) = raw := by
  rw [Nat.and_pow_two_sub_one_eq_mod]
  apply Nat.eq_of_testBit_eq
  intro i
  rw [Nat.testBit_mod_two_pow, Nat.testBit_or, Nat.testBit_two_pow]
  rcases Nat.lt_or_ge i 29 with hi | hi
  · have hne : ¬ k = i := by omega
    simp [hi, hne]
  · have h1 : Nat.testBit raw i = false :=
      Nat.testBit_eq_false_of_lt
        (lt_of_lt_of_le h (Nat.pow_le_pow_right (by omega) hi))
    have hi2 : ¬ i < 29 := Nat.not_lt.mpr hi
    simp [h1, hi2]

/-- Flag bits of the ID word produced by `new_error`: ERR on, EFF and
RTR off. -/
theorem err_word_bits (x : Nat) :
    ((x % 2 ^ 29) ||| 2 ^ 29) &&& 2 ^ 29 = 2 ^ 29 ∧
    ((x % 2 ^ 29) ||| 2 ^ 29) &&& 2 ^ 31 = 0 ∧
    ((x % 2 ^ 29) ||| 2 ^ 29) &&& 2 ^ 30 = 0 := by
  have hb : ∀ i : Nat, ((x % 2 ^ 29) ||| 2 ^ 29).testBit i =
      (decide (i < 29) && x.testBit i || decide (29 = i)) := by
    intro i
    rw [Nat.testBit_or, Nat.testBit_mod_two_pow, Nat.testBit_two_pow]
  refine ⟨?_, ?_, ?_⟩ <;>
    · rw [Nat.and_two_pow, hb]
      simp

/-- The spec-side (base, IDE, low) splitting is injective on valid
identifiers. -/
theorem split_spec_inj (a b : Id) (ha : a.valid) (hb : b.valid)
    (h1 : a.baseOf = b.baseOf) (h2 : a.ideBit = b.ideBit)
    (h3 : a.lowBits = b.lowBits) : a = b := by
  cases a with
  | Standard s =>
    cases b with
    | Standard t =>
      cases s with
      | mk sv =>
        cases t with
        | mk tv =>
          simp only [Id.baseOf] at h1
          rw [h1]
    | Extended t => simp [Id.ideBit] at h2
  | Extended s =>
    cases b with
    | Standard t => simp [Id.ideBit] at h2
    | Extended t =>
      cases s with
      | mk sv =>
        cases t with
        | mk tv =>
          simp only [Id.baseOf, Id.lowBits] at h1 h3
          have : sv = tv := by omega
          rw [this]

/-! Claim theorems. -/

/-- C1: for every pair of valid identifiers, `Id::cmp` is the three-level
tuple comparison of the spec: top-11-bit base ID first (an extended ID uses
its derived base, bits 28..18), then standard strictly before extended at
equal base, then the low-18-bit remainder when both are extended with equal
base. -/
theorem C1_id_cmp_is_arbitration_order (a b : Id)
    (ha : a.valid) (hb : b.valid) :
    Id.cmp a b = specIdCmp a b := by
  unfold Id.cmp specIdCmp
  rw [split_id_eq_spec a ha, split_id_eq_spec b hb]
  exact then_chain_eq_if _ _ _ _ _ _

/-- Witness for C1: a standard ID and an extended ID sharing base `0x123`
(`0x48C0005 = 0x123 <<< 18 + 5`). -/
theorem C1_id_cmp_is_arbitration_order_witness :
    Id.valid (Id.Standard ⟨0x123⟩) ∧ Id.valid (Id.Extended ⟨0x48C0005⟩) ∧
    Id.cmp (Id.Standard ⟨0x123⟩) (Id.Extended ⟨0x48C0005⟩) =
      specIdCmp (Id.Standard ⟨0x123⟩) (Id.Extended ⟨0x48C0005⟩) :=
  ⟨by decide, by decide,
    C1_id_cmp_is_arbitration_order _ _ (by decide) (by decide)⟩

/-- C10: on valid identifiers `Id::cmp` returns `eq` exactly on equal
identifiers — the (base, IDE bit, low-18-bits) splitting is injective, so
the arbitration ordering is consistent with structural equality. -/
theorem C10_id_cmp_eq_iff_eq (a b : Id) (ha : a.valid) (hb : b.valid) :
    Id.cmp a b = Ordering.eq ↔ a = b := by
  constructor
  · intro h
    unfold Id.cmp at h
    rw [ordering_then_eq_eq, ordering_then_eq_eq] at h
    obtain ⟨h1, h2, h3⟩ := h
    rw [Nat.compare_eq_eq] at h1 h2 h3
    have hsplit : a.split_id = b.split_id :=
      Prod.ext_iff.mpr ⟨h1, Prod.ext_iff.mpr ⟨h2, h3⟩⟩
    rw [split_id_eq_spec a ha, split_id_eq_spec b hb] at hsplit
    have g1 : a.baseOf = b.baseOf := congrArg Prod.fst hsplit
    have g2 : a.ideBit = b.ideBit := congrArg (fun p => p.2.1) hsplit
    have g3 : a.lowBits = b.lowBits := congrArg (fun p => p.2.2) hsplit
    exact split_spec_inj a b ha hb g1 g2 g3
  · rintro rfl
    unfold Id.cmp
    rw [ordering_then_eq_eq, ordering_then_eq_eq]
    exact ⟨Nat.compare_eq_eq.mpr rfl, Nat.compare_eq_eq.mpr rfl,
      Nat.compare_eq_eq.mpr rfl⟩

/-- Witness for C10: two distinct valid extended identifiers sharing a base
compare as non-equal. -/
theorem C10_id_cmp_eq_iff_eq_witness :
    Id.valid (Id.Extended ⟨0x48C0005⟩) ∧ Id.valid (Id.Extended ⟨0x48C0006⟩) ∧
    (Id.cmp (Id.Extended ⟨0x48C0005⟩) (Id.Extended ⟨0x48C0006⟩) = Ordering.eq ↔
      Id.Extended ⟨0x48C0005⟩ = Id.Extended ⟨0x48C0006⟩) :=
  ⟨by decide, by decide, C10_id_cmp_eq_iff_eq _ _ (by decide) (by decide)⟩

/-- C5: `id_from_raw` classifies a bare integer: a value in `0..=0x7FF`
becomes that standard identifier, a value in `0x800..=0x1FFFFFFF` becomes
that extended identifier, and anything above 29 bits yields `none`. -/
theorem C5_id_from_raw_classification (raw : Nat) :
    (raw ≤ 0x7FF → id_from_raw raw = some (Id.Standard ⟨raw⟩)) ∧
    (0x7FF < raw → raw ≤ 0x1FFFFFFF →
      id_from_raw raw = some (Id.Extended ⟨raw⟩)) ∧
    (0x1FFFFFFF < raw → id_from_raw raw = none) :=
  ⟨id_from_raw_low raw, id_from_raw_mid raw, id_from_raw_high raw⟩

/-- Witness for C5: one concrete value in each of the three regimes. -/
theorem C5_id_from_raw_classification_witness :
    id_from_raw 0x123 = some (Id.Standard ⟨0x123⟩) ∧
    id_from_raw 0x1FFFFFF = some (Id.Extended ⟨0x1FFFFFF⟩) ∧
    id_from_raw 0x20000000 = none :=
  ⟨(C5_id_from_raw_classification 0x123).1 (by decide),
    (C5_id_from_raw_classification 0x1FFFFFF).2.1 (by decide) (by decide),
    (C5_id_from_raw_classification 0x20000000).2.2 (by decide)⟩

/-- C6: `id_from_raw` and `id_to_canid_t` are inverse modulo the EFF flag:
for a valid raw value the round trip masked by the width of the resulting
variant gives the value back, and `id_to_canid_t` ORs in `CAN_EFF_FLAG`
exactly on extended identifiers. -/
theorem C6_id_roundtrip (raw : Nat) (h : raw ≤ 0x1FFFFFFF) :
    ∃ id, id_from_raw raw = some id ∧
      id_to_canid_t id &&&
        (if id_is_extended id then CAN_EFF_MASK else CAN_SFF_MASK) = raw ∧
      (id_is_extended id = true → id_to_canid_t id = raw ||| CAN_EFF_FLAG) ∧
      (id_is_extended id = false → id_to_canid_t id = raw) := by
  rcases le_or_lt raw 0x7FF with hle | hgt
  · refine ⟨Id.Standard ⟨raw⟩, id_from_raw_low raw hle, ?_, ?_, ?_⟩
    · show raw &&& (if false = true then CAN_EFF_MASK else CAN_SFF_MASK) = raw
      rw [if_neg (by simp)]
      have hm : CAN_SFF_MASK = 2 ^ 11 - 1 := by norm_num [CAN_SFF_MASK]
      rw [hm, Nat.and_pow_two_sub_one_eq_mod]
      exact Nat.mod_eq_of_lt (by omega)
    · intro hx
      exact absurd hx (by simp [id_is_extended])
    · intro _
      rfl
  · refine ⟨Id.Extended ⟨raw⟩, id_from_raw_mid raw hgt h, ?_, ?_, ?_⟩
    · show (raw ||| CAN_EFF_FLAG) &&& (if true = true then CAN_EFF_MASK else CAN_SFF_MASK) = raw
      rw [if_pos rfl]
      have hf : CAN_EFF_FLAG = 2 ^ 31 := by norm_num [CAN_EFF_FLAG]
      have hm : CAN_EFF_MASK = 2 ^ 29 - 1 := by norm_num [CAN_EFF_MASK]
      rw [hf, hm]
      exact or_high_bit_masked raw 31 (by omega) (by omega)
    · intro _
      rfl
    · intro hx
      exact absurd hx (by simp [id_is_extended])

/-- Witness for C6: the spec's end-to-end value `0x1FFFFFF`. -/
theorem C6_id_roundtrip_witness :
    (0x1FFFFFF : Nat) ≤ 0x1FFFFFFF ∧
    ∃ id, id_from_raw 0x1FFFFFF = some id ∧
      id_to_canid_t id &&&
        (if id_is_extended id then CAN_EFF_MASK else CAN_SFF_MASK) = 0x1FFFFFF ∧
      (id_is_extended id = true → id_to_canid_t id = 0x1FFFFFF ||| CAN_EFF_FLAG) ∧
      (id_is_extended id = false → id_to_canid_t id = 0x1FFFFFF) :=
  ⟨by decide, C6_id_roundtrip 0x1FFFFFF (by decide)⟩

/-- C2: `new_error` fails with `TooMuchData` exactly when the payload
exceeds 8 bytes; on success the ID word has ERR set and EFF/RTR clear
whatever the supplied `can_id` was, the length code is 8, and the payload
is the data zero-padded to 8 bytes. -/
theorem C2_new_error_spec (can_id : Nat) (data : List Nat) :
    (CanErrorFrame.new_error can_id data =
        Except.error ConstructionError.TooMuchData ↔ 8 < data.length) ∧
    ∀ f, CanErrorFrame.new_error can_id data = Except.ok f →
      (IdFlags.new f.id_word).is_error = true ∧
      (IdFlags.new f.id_word).is_extended = false ∧
      (IdFlags.new f.id_word).is_remote = false ∧
      f.dlc = 8 ∧
      f.data = data ++ List.replicate (8 - data.length) 0 := by
  have em : CAN_ERR_MASK = 2 ^ 29 - 1 := by norm_num [CAN_ERR_MASK]
  have ef : CAN_ERR_FLAG = 2 ^ 29 := by norm_num [CAN_ERR_FLAG]
  have eff : CAN_EFF_FLAG = 2 ^ 31 := by norm_num [CAN_EFF_FLAG]
  have rtr : CAN_RTR_FLAG = 2 ^ 30 := by norm_num [CAN_RTR_FLAG]
  obtain ⟨w1, w2, w3⟩ := err_word_bits can_id
  constructor
  · unfold CanErrorFrame.new_error CAN_MAX_DLEN
    rcases le_or_lt data.length 8 with hle | hgt
    · rw [if_pos hle]
      constructor
      · intro hx
        exact Except.noConfusion hx
      · intro hx
        exact absurd hx (by omega)
    · rw [if_neg (by omega)]
      constructor
      · intro _
        exact hgt
      · intro _
        rfl
  · intro f hf
    unfold CanErrorFrame.new_error CAN_MAX_DLEN at hf
    rcases le_or_lt data.length 8 with hle | hgt
    · rw [if_pos hle] at hf
      injection hf with hf
      subst hf
      refine ⟨?_, ?_, ?_, rfl, rfl⟩
      · show decide (((can_id &&& CAN_ERR_MASK) ||| CAN_ERR_FLAG) &&&
          CAN_ERR_FLAG ≠ 0) = true
        rw [em, ef, Nat.and_pow_two_sub_one_eq_mod, w1]
        decide
      · show decide (((can_id &&& CAN_ERR_MASK) ||| CAN_ERR_FLAG) &&&
          CAN_EFF_FLAG ≠ 0) = false
        rw [em, ef, eff, Nat.and_pow_two_sub_one_eq_mod, w2]
        decide
      · show decide (((can_id &&& CAN_ERR_MASK) ||| CAN_ERR_FLAG) &&&
          CAN_RTR_FLAG ≠ 0) = false
        rw [em, ef, rtr, Nat.and_pow_two_sub_one_eq_mod, w3]
        decide
    · rw [if_neg (by omega)] at hf
      exact Except.noConfusion hf

/-- Witness for C2: `new_error(0x0002, [5])`, whose composite ID word is
`0x20000002 = 536870914`. -/
theorem C2_new_error_spec_witness :
    (IdFlags.new (CanErrorFrame.id_word
      ⟨⟨536870914, 8, [5, 0, 0, 0, 0, 0, 0, 0]⟩⟩)).is_error = true ∧
    (IdFlags.new (CanErrorFrame.id_word
      ⟨⟨536870914, 8, [5, 0, 0, 0, 0, 0, 0, 0]⟩⟩)).is_extended = false ∧
    (IdFlags.new (CanErrorFrame.id_word
      ⟨⟨536870914, 8, [5, 0, 0, 0, 0, 0, 0, 0]⟩⟩)).is_remote = false ∧
    CanErrorFrame.dlc ⟨⟨536870914, 8, [5, 0, 0, 0, 0, 0, 0, 0]⟩⟩ = 8 ∧
    CanErrorFrame.data ⟨⟨536870914, 8, [5, 0, 0, 0, 0, 0, 0, 0]⟩⟩ =
      [5] ++ List.replicate (8 - [5].length) 0 :=
  (C2_new_error_spec 0x0002 [5]).2
    ⟨⟨536870914, 8, [5, 0, 0, 0, 0, 0, 0, 0]⟩⟩ rfl

/-- C3: converting a raw classic frame into a `CanErrorFrame` succeeds,
keeping the frame unchanged, exactly when the ERR flag bit of its ID word
is set, and fails with `WrongFrameType` otherwise. -/
theorem C3_try_from_requires_err_flag (frame : can_frame) :
    (CanErrorFrame.tryFrom frame = Except.ok ⟨frame⟩ ↔
      frame.can_id &&& CAN_ERR_FLAG ≠ 0) ∧
    (CanErrorFrame.tryFrom frame =
        Except.error ConstructionError.WrongFrameType ↔
      frame.can_id &&& CAN_ERR_FLAG = 0) := by
  by_cases h : frame.can_id &&& CAN_ERR_FLAG = 0 <;>
    simp [CanErrorFrame.tryFrom, h]

/-- Witness for C3: a frame with ERR set (`0x20000001`) converts to itself. -/
theorem C3_try_from_requires_err_flag_witness :
    (CanErrorFrame.tryFrom ⟨536870913, 0, [0, 0, 0, 0, 0, 0, 0, 0]⟩ =
        Except.ok ⟨⟨536870913, 0, [0, 0, 0, 0, 0, 0, 0, 0]⟩⟩ ↔
      (536870913 : Nat) &&& CAN_ERR_FLAG ≠ 0) ∧
    (CanErrorFrame.tryFrom ⟨536870913, 0, [0, 0, 0, 0, 0, 0, 0, 0]⟩ =
        Except.error ConstructionError.WrongFrameType ↔
      (536870913 : Nat) &&& CAN_ERR_FLAG = 0) :=
  C3_try_from_requires_err_flag ⟨536870913, 0, [0, 0, 0, 0, 0, 0, 0, 0]⟩

/-- C4: the structured-error encoding table: each `CanError` case maps to
its fixed error-bit code with its case-specific payload bytes, the
`DecodingFailure` case collapses to code 0, and the concrete frame
`new_error(0x0002, [5])` has `error_bits = 0x0002` and payload
`[5,0,0,0,0,0,0,0]`. -/
theorem C4_can_error_encoding_table (bit prob vtype location failure : Nat) :
    (CanErrorFrame.fromCanError CanError.TransmitTimeout).error_bits = 0x0001 ∧
    (CanErrorFrame.fromCanError (CanError.LostArbitration bit)).error_bits
      = 0x0002 ∧
    (CanErrorFrame.fromCanError (CanError.LostArbitration bit)).data
      = [bit, 0, 0, 0, 0, 0, 0, 0] ∧
    (CanErrorFrame.fromCanError (CanError.ControllerProblem prob)).error_bits
      = 0x0004 ∧
    (CanErrorFrame.fromCanError (CanError.ControllerProblem prob)).data
      = [0, prob % 2 ^ 8, 0, 0, 0, 0, 0, 0] ∧
    (CanErrorFrame.fromCanError
      (CanError.ProtocolViolation vtype location)).error_bits = 0x0008 ∧
    (CanErrorFrame.fromCanError (CanError.ProtocolViolation vtype location)).data
      = [0, 0, vtype % 2 ^ 8, location % 2 ^ 8, 0, 0, 0, 0] ∧
    (CanErrorFrame.fromCanError CanError.TransceiverError).error_bits = 0x0010 ∧
    (CanErrorFrame.fromCanError CanError.NoAck).error_bits = 0x0020 ∧
    (CanErrorFrame.fromCanError CanError.BusOff).error_bits = 0x0040 ∧
    (CanErrorFrame.fromCanError CanError.BusError).error_bits = 0x0080 ∧
    (CanErrorFrame.fromCanError CanError.Restarted).error_bits = 0x0100 ∧
    (CanErrorFrame.fromCanError (CanError.DecodingFailure failure)).error_bits
      = 0 ∧
    ∃ f, CanErrorFrame.new_error 0x0002 [5] = Except.ok f ∧
      f.error_bits = 0x0002 ∧ f.data = [5, 0, 0, 0, 0, 0, 0, 0] := by
  refine ⟨?_, ?_, ?_, ?_, ?_, ?_, ?_, ?_, ?_, ?_, ?_, ?_, ?_,
    ⟨⟨536870914, 8, [5, 0, 0, 0, 0, 0, 0, 0]⟩⟩, rfl, rfl, rfl⟩ <;>
    first
      | rfl
      | (simp [CanErrorFrame.fromCanError, CanErrorFrame.unwrap_new_error,
            CanErrorFrame.new_error, CanErrorFrame.error_bits,
            CanErrorFrame.id_word, CanErrorFrame.data, CAN_ERR_MASK,
            CAN_ERR_FLAG, CAN_MAX_DLEN] <;>
          decide)

/-- C7 counterexample: on the error frame with ID word `0x20000001`,
`is_data_frame()` and `is_remote_frame()` both return `false`, so
`is_data_frame` is not the negation of `is_remote_frame`. -/
theorem C7_counterexample :
    ¬ (CanErrorFrame.is_data_frame ⟨⟨536870913, 8, [0, 0, 0, 0, 0, 0, 0, 0]⟩⟩ =
      !CanErrorFrame.is_remote_frame
        ⟨⟨536870913, 8, [0, 0, 0, 0, 0, 0, 0, 0]⟩⟩) := by
  decide

/-- C7 (amended): on every `CanErrorFrame` both `is_data_frame()` and
`is_remote_frame()` return `false` (so the data/remote complementarity
fails there), while `is_standard` is the trait default, the pointwise
negation of the (fuel-indexed, never-returning) `is_extended`. -/
theorem C7_error_frame_flag_invariants (f : CanErrorFrame) (fuel : Nat) :
    CanErrorFrame.is_data_frame f = false ∧
    CanErrorFrame.is_remote_frame f = false ∧
    CanErrorFrame.is_standard_fuel fuel f =
      (CanErrorFrame.is_extended_fuel fuel f).map (fun b => !b) :=
  ⟨rfl, rfl, rfl⟩

/-- C8: the source body of `CanErrorFrame::is_extended` is
`self.is_extended()`; with any finite fuel the call never produces a value
— the code diverges instead of returning `false` as the spec requires. -/
theorem C8_is_extended_never_returns (fuel : Nat) (f : CanErrorFrame) :
    CanErrorFrame.is_extended_fuel fuel f = none := by
  induction fuel with
  | zero => rfl
  | succ n ih => exact ih

/-- C9: error frames are receive-only: `new_remote` always yields `none`,
`set_data` always fails with `WrongFrameType` leaving the frame unchanged,
and `set_id` returns the frame with every field unchanged. -/
theorem C9_error_frames_receive_only (id : Id) (dlc : Nat)
    (f : CanErrorFrame) (data : List Nat) :
    CanErrorFrame.new_remote id dlc = none ∧
    CanErrorFrame.set_data f data =
      (Except.error ConstructionError.WrongFrameType, f) ∧
    CanErrorFrame.set_id f id = f :=
  ⟨rfl, rfl, rfl⟩

end SocketCan
